import Mathlib

/-!
Shallow embedding of `src/app.py`, a Flask backend that proxies chat
messages to an Azure OpenAI chat-completions endpoint.

Modelling decisions:
* JSON values are the inductive `JVal`; Python exceptions are the
  inductive `Exc` (one constructor per exception class that can arise in
  the embedded code), with `Exc.str` giving Python's `str(e)`.
* The process environment is a function `Env := String → Option String`,
  read through `getenv` exactly where the source calls `os.getenv`
  (lines 53-57 and 138) — i.e. at every invocation, not once at startup.
* The upstream service is an oracle `Upstream : HttpRequest → UpstreamResult`:
  either a transport-level failure (connection error, timeout, or a
  non-2xx status surfaced by `raise_for_status`, all of which raise
  `requests.exceptions.RequestException`) or a 2xx response with a JSON
  body.
* `call_azure_openai` returns, besides its `Except` result, the list of
  HTTP requests it issued, so that theorems can speak about which network
  calls were (or were not) attempted.
-/

namespace RagAzure

/-- JSON-like values, as produced by `response.json()` / consumed by
`jsonify`. -/
inductive JVal where
  | null : JVal
  | bool (b : Bool) : JVal
  | num (n : Int) : JVal
  | str (s : String) : JVal
  | arr (xs : List JVal) : JVal
  | obj (kvs : List (String × JVal)) : JVal

/-- Python exceptions that can arise in the embedded code, each carrying
what `str(e)` would show (for `KeyError` the missing key, since
`str(KeyError(k))` is `repr(k)`). -/
inductive Exc where
  | requestException (msg : String)
  | keyError (key : String)
  | indexError (msg : String)
  | typeError (msg : String)
  | attributeError (msg : String)
  | badRequest (msg : String)
  | generic (msg : String)
deriving DecidableEq

/-- Python's `str(e)` for each modelled exception. -/
def Exc.str : Exc → String
  | .requestException m => m
  | .keyError k => "'" ++ k ++ "'"
  | .indexError m => m
  | .typeError m => m
  | .attributeError m => m
  | .badRequest m => m
  | .generic m => m

/-- Python's type name for a `JVal`, used in `AttributeError` messages. -/
def pyTypeName : JVal → String
  | .null => "NoneType"
  | .bool _ => "bool"
  | .num _ => "int"
  | .str _ => "str"
  | .arr _ => "list"
  | .obj _ => "dict"

/-- Python subscript `v[k]` with a string key: dict lookup raising
`KeyError` when absent, `TypeError` on non-dict values. -/
def subscriptStr (v : JVal) (k : String) : Except Exc JVal :=
  match v with
  | .obj kvs =>
      match kvs.lookup k with
      | some x => .ok x
      | none => .error (.keyError k)
  | .arr _ => .error (.typeError "list indices must be integers or slices, not str")
  | .str _ => .error (.typeError "string indices must be integers")
  | other => .error (.typeError ("'" ++ pyTypeName other ++ "' object is not subscriptable"))

/-- Python subscript `v[i]` with a natural-number index: list indexing
raising `IndexError` past the end, string indexing yielding a one-character
string, `KeyError` on a JSON object (whose keys are strings), `TypeError`
otherwise. -/
def subscriptNat (v : JVal) (i : Nat) : Except Exc JVal :=
  match v with
  | .arr xs =>
      match xs[i]? with
      | some x => .ok x
      | none => .error (.indexError "list index out of range")
  | .obj _ => .error (.keyError (toString i))
  | .str s =>
      match s.data[i]? with
      | some c => .ok (.str (String.mk [c]))
      | none => .error (.indexError "string index out of range")
  | other => .error (.typeError ("'" ++ pyTypeName other ++ "' object is not subscriptable"))

/-- Python `v.get(key, dflt)`: total on dicts, `AttributeError` on every
other value (`None`, lists, strings, numbers have no `.get`). -/
def dictGet (v : JVal) (key : String) (dflt : JVal) : Except Exc JVal :=
  match v with
  | .obj kvs => .ok ((kvs.lookup key).getD dflt)
  | other => .error (.attributeError ("'" ++ pyTypeName other ++ "' object has no attribute 'get'"))

/-- The process environment at the moment of a call to `os.getenv`. -/
abbrev Env := String → Option String

/-- `os.getenv(key)` (app.py lines 53-57, 138). -/
def getenv (env : Env) (key : String) : Option String := env key

/-- Python f-string interpolation of an `os.getenv` result: `None` prints
as the four characters `None`. -/
def fstr : Option String → String
  | some s => s
  | none => "None"

/-- The fixed system prompt `SYSTEM_PROMPT` (app.py lines 24-48). -/
def SYSTEM_PROMPT : String :=
  "You are an AI assistant that helps people find movies and show recommendations on Netflix.\n\nIMPORTANT FORMATTING RULES:\n- Use bullet points with emojis for lists\n- Use clear section headings\n- Keep responses well-structured and easy to read\n- Use line breaks between sections\n- Bold important titles or key points\n- Use a friendly, engaging tone\n\nRESPONSE STRUCTURE:\n🎬 **Movie/TV Show Recommendations:**\n• Title 1 (Year) - Brief description\n• Title 2 (Year) - Brief description\n\n📝 **Why you might like these:**\n• Reason 1\n• Reason 2\n\n💡 **Pro Tip:** Helpful additional information\n\nUse only the tv shows and movies that are given in the prompt. Give the user a concise and helpful response.\nIf you don't know about a movie or it's not available on Netflix, be honest about it.\n\nKeep responses friendly and helpful! Use Netflix-style recommendations with engaging formatting."

/-- The URL built at app.py line 53 by f-string interpolation of three
environment variables. -/
def buildUrl (env : Env) : String :=
  fstr (getenv env "AZURE_OPENAI_ENDPOINT") ++ "/openai/deployments/" ++
    fstr (getenv env "AZURE_OPENAI_DEPLOYMENT_NAME") ++
    "/chat/completions?api-version=" ++ fstr (getenv env "AZURE_OPENAI_API_VERSION")

/-- The observable content of the `requests.post` call at app.py line 70:
URL, headers, JSON body fields, and timeout. -/
structure HttpRequest where
  url : String
  contentType : String
  apiKey : Option String
  messages : List (String × JVal)
  max_tokens : Nat
  temperature : ℚ
  timeout : Nat

/-- Outcome of the outbound call as seen by the `try` block: either a
transport failure (connection error, timeout, or non-2xx status raised by
`raise_for_status` — all `requests.exceptions.RequestException`s), or a
2xx response whose JSON body is `body`. -/
inductive UpstreamResult where
  | transportError (cause : String)
  | success (body : JVal)

/-- The upstream Azure OpenAI service, as an oracle. -/
abbrev Upstream := HttpRequest → UpstreamResult

/-- The request constructed at app.py lines 53-67 for a given user
message. -/
def buildRequest (env : Env) (user_message : JVal) : HttpRequest :=
  { url := buildUrl env
    contentType := "application/json"
    apiKey := getenv env "AZURE_OPENAI_API_KEY"
    messages := [("system", .str SYSTEM_PROMPT), ("user", user_message)]
    max_tokens := 800
    temperature := 7/10
    timeout := 30 }

/-- `result['choices'][0]['message']['content']` (app.py line 74). -/
def extractContent (result : JVal) : Except Exc JVal :=
  match subscriptStr result "choices" with
  | .error e => .error e
  | .ok choices =>
    match subscriptNat choices 0 with
    | .error e => .error e
    | .ok first =>
      match subscriptStr first "message" with
      | .error e => .error e
      | .ok msg => subscriptStr msg "content"

/-- The body of the `try` block of `call_azure_openai` (app.py lines
52-74): issue the request, surface transport failures as
`RequestException`, otherwise extract the content from the JSON body. -/
def tryBody (upstream : Upstream) (req : HttpRequest) : Except Exc JVal :=
  match upstream req with
  | .transportError cause => .error (.requestException cause)
  | .success body => extractContent body

/-- The `except` clauses of `call_azure_openai` (app.py lines 76-84):
`RequestException` is re-raised as `Exception("Network error: ...")`,
`KeyError` as `Exception("Invalid response format from Azure OpenAI")`,
and anything else is re-raised unchanged. -/
def handleExcept (r : Except Exc JVal) : Except Exc JVal :=
  match r with
  | .ok v => .ok v
  | .error (.requestException m) => .error (.generic ("Network error: " ++ m))
  | .error (.keyError _) => .error (.generic "Invalid response format from Azure OpenAI")
  | .error e => .error e

/-- `call_azure_openai` (app.py lines 50-84). Besides the result, returns
the list of HTTP requests issued (always exactly one). -/
def call_azure_openai (env : Env) (upstream : Upstream) (user_message : JVal) :
    Except Exc JVal × List HttpRequest :=
  (handleExcept (tryBody upstream (buildRequest env user_message)),
   [buildRequest env user_message])

/-- The startup connectivity self-test (app.py lines 86-93): `True` iff
the test call succeeds. -/
def azure_connected (env : Env) (upstream : Upstream) : Bool :=
  match (call_azure_openai env upstream (.str "What are 2 popular movies on Netflix?")).1 with
  | .ok _ => true
  | .error _ => false

/-- An HTTP response: status code and JSON object body (field order as
written in the source). -/
structure Response where
  statusCode : Nat
  body : List (String × JVal)

/-- The state of an incoming POST body: either not parseable as JSON
(absent body, wrong content type, or malformed text), or parsed to a JSON
value (`null` parses to `JVal.null`). -/
inductive BodyState where
  | notJson
  | parsed (v : JVal)

/-- Flask's `request.json` (app.py line 112): yields the parsed value, or
raises a `BadRequest`/`UnsupportedMediaType` `HTTPException` when the body
is not JSON. -/
def requestJson : BodyState → Except Exc JVal
  | .notJson => .error (.badRequest
      "400 Bad Request: The browser (or proxy) sent a request that this server could not understand.")
  | .parsed v => .ok v

/-- Fixed reply text at app.py line 108. -/
def notConnectedReply : String :=
  "Azure OpenAI is not connected. Please check your configuration."

/-- The error reply built at app.py line 129 from `str(e)`. -/
def chatTrouble (e : Exc) : String :=
  "I'm having trouble connecting to the movie database: " ++ Exc.str e

/-- The `POST /api/chat` handler `chat` (app.py lines 103-131). Returns
the HTTP response together with the list of upstream requests issued while
handling it. -/
def chat (connected : Bool) (env : Env) (upstream : Upstream) (body : BodyState) :
    Response × List HttpRequest :=
  if !connected then
    (⟨500, [("reply", .str notConnectedReply), ("status", .str "error")]⟩, [])
  else
    match requestJson body with
    | .error e => (⟨500, [("reply", .str (chatTrouble e)), ("status", .str "error")]⟩, [])
    | .ok j =>
      match dictGet j "message" (.str "") with
      | .error e => (⟨500, [("reply", .str (chatTrouble e)), ("status", .str "error")]⟩, [])
      | .ok user_message =>
        match (call_azure_openai env upstream user_message).1 with
        | .ok reply =>
            (⟨200, [("reply", reply), ("status", .str "success")]⟩,
             (call_azure_openai env upstream user_message).2)
        | .error e =>
            (⟨500, [("reply", .str (chatTrouble e)), ("status", .str "error")]⟩,
             (call_azure_openai env upstream user_message).2)

/-- The `GET /` handler `home` (app.py lines 95-101). -/
def home (connected : Bool) : Response :=
  ⟨200, [("message", .str "Movie Recommendation Backend is running!"),
         ("status", .str "success"),
         ("azure_openai", .str (if connected then "Connected" else "Not connected"))]⟩

/-- `jsonify` of a possibly-absent string: Python `None` serialises to
JSON `null`. -/
def jsonOfOpt : Option String → JVal
  | some s => .str s
  | none => .null

/-- The `GET /api/health` handler `health_check` (app.py lines 133-139).
Note it reads `AZURE_OPENAI_DEPLOYMENT_NAME` from the environment at
request time. -/
def health_check (connected : Bool) (env : Env) : Response :=
  ⟨200, [("status", .str "Backend is running!"),
         ("azure_openai", .str (if connected then "Connected" else "Not connected")),
         ("deployment", jsonOfOpt (getenv env "AZURE_OPENAI_DEPLOYMENT_NAME"))]⟩

/-- The `GET /api/test` handler `test_connection` (app.py lines 141-155). -/
def test_connection (env : Env) (upstream : Upstream) : Response :=
  match (call_azure_openai env upstream (.str "What are 2 popular movies on Netflix?")).1 with
  | .ok resp =>
      ⟨200, [("success", .bool true), ("response", resp),
             ("message", .str "Azure OpenAI is working!")]⟩
  | .error e =>
      ⟨500, [("success", .bool false), ("error", .str (Exc.str e))]⟩

/-! Concrete fixtures used by witnesses and counterexamples. -/

/-- An environment with no variables set. -/
def envNone : Env := fun _ => none

/-- An upstream that always fails at the transport level. -/
def upBoom : Upstream := fun _ => .transportError "boom"

/-- A well-formed upstream JSON body whose content is `s`. -/
def okBody (s : String) : JVal :=
  .obj [("choices", .arr [.obj [("message", .obj [("content", .str s)])]])]

/-- An upstream that always answers 2xx with content `s`. -/
def upOk (s : String) : Upstream := fun _ => .success (okBody s)

/-! Helper lemmas. -/

/-- Subscripting with a string key never raises `RequestException`. -/
theorem subscriptStr_ne_reqexc (v : JVal) (k x : String) :
    subscriptStr v k ≠ .error (.requestException x) := by
  cases v <;> simp [subscriptStr]
  case obj kvs => cases h : kvs.lookup k <;> simp [h]

/-- Subscripting with a numeric index never raises `RequestException`. -/
theorem subscriptNat_ne_reqexc (v : JVal) (i : Nat) (x : String) :
    subscriptNat v i ≠ .error (.requestException x) := by
  cases v <;> simp [subscriptNat]
  case str s => cases h : s.data[i]? <;> simp [h]
  case arr xs => cases h : xs[i]? <;> simp [h]

/-- Extracting `choices[0].message.content` never raises
`RequestException`: its failures are `KeyError`, `IndexError` or
`TypeError`. -/
theorem extractContent_ne_reqexc (body : JVal) (x : String) :
    extractContent body ≠ .error (.requestException x) := by
  unfold extractContent
  split
  · rename_i e h1
    intro hc
    injection hc with h
    exact subscriptStr_ne_reqexc body "choices" x (by rw [h1, h])
  · rename_i choices h1
    split
    · rename_i e h2
      intro hc
      injection hc with h
      exact subscriptNat_ne_reqexc choices 0 x (by rw [h2, h])
    · rename_i first h2
      split
      · rename_i e h3
        intro hc
        injection hc with h
        exact subscriptStr_ne_reqexc first "message" x (by rw [h3, h])
      · rename_i msg h3
        exact subscriptStr_ne_reqexc msg "content" x

/-- C1: while the startup connectivity flag is false, `POST /api/chat`
returns HTTP 500 with the fixed reply
"Azure OpenAI is not connected. Please check your configuration." and
status "error", and issues no upstream request (empty request log),
regardless of the request body and of the upstream's behaviour. -/
theorem chat_not_connected (env : Env) (upstream : Upstream) (body : BodyState) :
    chat false env upstream body =
      (⟨500, [("reply", .str "Azure OpenAI is not connected. Please check your configuration."),
              ("status", .str "error")]⟩, []) := rfl

/-- C2: while the connectivity flag is true, if the completion client
raises any exception `e`, the handler returns HTTP 500 with status
"error" and a reply that contains `str(e)` (it is the fixed text
"I'm having trouble connecting to the movie database: " followed by
`str(e)`). -/
theorem chat_error_response (env : Env) (upstream : Upstream)
    (kvs : List (String × JVal)) (e : Exc)
    (h : (call_azure_openai env upstream ((kvs.lookup "message").getD (.str ""))).1 =
      .error e) :
    (chat true env upstream (.parsed (.obj kvs))).1 =
      ⟨500, [("reply", .str ("I'm having trouble connecting to the movie database: " ++ Exc.str e)),
             ("status", .str "error")]⟩ := by
  simp [chat, requestJson, dictGet, chatTrouble, h]

/-- Witness for C2 at a concrete input: a transport failure "boom"
surfaces as a 500 whose reply ends with the exception text. -/
theorem chat_error_response_witness :
    (call_azure_openai envNone upBoom
        ((([("message", JVal.str "hi")] : List (String × JVal)).lookup "message").getD (.str ""))).1 =
      .error (.generic "Network error: boom") ∧
    (chat true envNone upBoom (.parsed (.obj [("message", .str "hi")]))).1 =
      ⟨500, [("reply", .str ("I'm having trouble connecting to the movie database: " ++
                Exc.str (.generic "Network error: boom"))),
             ("status", .str "error")]⟩ :=
  ⟨rfl, chat_error_response envNone upBoom [("message", .str "hi")]
    (.generic "Network error: boom") rfl⟩

/-- Counterexample to C3 as stated: with a well-formed upstream body whose
`choices[0].message.content` is the empty string, `/api/chat` answers 200
with `status:"success"` but an empty `reply`, so the reply is not a
non-empty string. -/
theorem chat_success_reply_can_be_empty :
    (chat true envNone (upOk "") (.parsed (.obj [("message", .str "recommend a comedy")]))).1 =
      ⟨200, [("reply", .str ""), ("status", .str "success")]⟩ := rfl

/-- C3 (amended): while the connectivity flag is true, when the
completion client succeeds with value `v`, `/api/chat` returns HTTP 200
with status "success" and `reply` equal to `v` — the extracted
`choices[0].message.content`, which the code does not require to be
non-empty. -/
theorem chat_success_reply (env : Env) (upstream : Upstream)
    (kvs : List (String × JVal)) (v : JVal)
    (h : (call_azure_openai env upstream ((kvs.lookup "message").getD (.str ""))).1 = .ok v) :
    (chat true env upstream (.parsed (.obj kvs))).1 =
      ⟨200, [("reply", v), ("status", .str "success")]⟩ := by
  simp [chat, requestJson, dictGet, h]

/-- Witness for C3's amended theorem at the spec's own example: content
"Try X" yields `{"reply": "Try X", "status": "success"}` with code 200. -/
theorem chat_success_reply_witness :
    (call_azure_openai envNone (upOk "Try X")
        ((([("message", JVal.str "recommend a comedy")] : List (String × JVal)).lookup
            "message").getD (.str ""))).1 = .ok (.str "Try X") ∧
    (chat true envNone (upOk "Try X")
        (.parsed (.obj [("message", .str "recommend a comedy")]))).1 =
      ⟨200, [("reply", .str "Try X"), ("status", .str "success")]⟩ :=
  ⟨rfl, chat_success_reply envNone (upOk "Try X")
    [("message", .str "recommend a comedy")] (.str "Try X") rfl⟩

/-- C4: the completion client classifies failures of the outbound call:
(a) any transport failure (network, timeout, non-2xx) raises
`Exception("Network error: <cause>")`; (b) a missing expected key in the
upstream JSON raises
`Exception("Invalid response format from Azure OpenAI")`; (c) any other
exception from the extraction (e.g. the `IndexError` from an empty
`choices` array) propagates unchanged. -/
theorem call_error_classification (env : Env) (upstream : Upstream) (m : JVal) :
    (∀ cause, upstream (buildRequest env m) = .transportError cause →
      (call_azure_openai env upstream m).1 =
        .error (.generic ("Network error: " ++ cause))) ∧
    (∀ body k, upstream (buildRequest env m) = .success body →
      extractContent body = .error (.keyError k) →
      (call_azure_openai env upstream m).1 =
        .error (.generic "Invalid response format from Azure OpenAI")) ∧
    (∀ body e, upstream (buildRequest env m) = .success body →
      extractContent body = .error e → (∀ k, e ≠ .keyError k) →
      (call_azure_openai env upstream m).1 = .error e) := by
  refine ⟨?_, ?_, ?_⟩
  · intro cause hc
    simp [call_azure_openai, tryBody, handleExcept, hc]
  · intro body k hs he
    simp [call_azure_openai, tryBody, handleExcept, hs, he]
  · intro body e hs he hk
    have hne : ∀ x, e ≠ .requestException x := by
      intro x hx
      exact extractContent_ne_reqexc body x (by rw [he, hx])
    simp only [call_azure_openai, tryBody, hs, he]
    cases e with
    | requestException m2 => exact absurd rfl (hne m2)
    | keyError k2 => exact absurd rfl (hk k2)
    | indexError m2 => rfl
    | typeError m2 => rfl
    | attributeError m2 => rfl
    | badRequest m2 => rfl
    | generic m2 => rfl

/-- Witness for C4 at concrete inputs: a transport failure "boom", a body
with no "choices" key, and a body whose "choices" array is empty, hitting
the three classification branches. -/
theorem call_error_classification_witness :
    (call_azure_openai envNone upBoom (.str "hi")).1 =
      .error (.generic "Network error: boom") ∧
    (call_azure_openai envNone (fun _ => .success (.obj [])) (.str "hi")).1 =
      .error (.generic "Invalid response format from Azure OpenAI") ∧
    (call_azure_openai envNone (fun _ => .success (.obj [("choices", .arr [])]))
        (.str "hi")).1 = .error (.indexError "list index out of range") :=
  ⟨(call_error_classification envNone upBoom (.str "hi")).1 "boom" rfl,
   (call_error_classification envNone (fun _ => .success (.obj [])) (.str "hi")).2.1
     (.obj []) "choices" rfl rfl,
   (call_error_classification envNone (fun _ => .success (.obj [("choices", .arr [])]))
       (.str "hi")).2.2 (.obj [("choices", .arr [])])
     (.indexError "list index out of range") rfl rfl
     (fun _ h => Exc.noConfusion h)⟩

/-- C5: while the connectivity flag is true, a JSON-object body without a
"message" field is handled exactly like one whose "message" is the empty
string, and the single upstream request issued is built for the empty
user message. -/
theorem chat_defaults_missing_message (env : Env) (upstream : Upstream)
    (kvs : List (String × JVal)) (h : kvs.lookup "message" = none) :
    chat true env upstream (.parsed (.obj kvs)) =
      chat true env upstream (.parsed (.obj [("message", .str "")])) ∧
    (chat true env upstream (.parsed (.obj kvs))).2 = [buildRequest env (.str "")] := by
  constructor
  · simp [chat, requestJson, dictGet, h]
  · simp [chat, requestJson, dictGet, h, Option.getD_none]
    cases hr : (call_azure_openai env upstream (JVal.str "")).1 <;>
      simp [hr, call_azure_openai]

/-- Witness for C5 at a concrete input: the body `{"other": null}` has no
"message" field and is treated as the empty-string message. -/
theorem chat_defaults_missing_message_witness :
    chat true envNone upBoom (.parsed (.obj [("other", .null)])) =
      chat true envNone upBoom (.parsed (.obj [("message", .str "")])) ∧
    (chat true envNone upBoom (.parsed (.obj [("other", .null)]))).2 =
      [buildRequest envNone (.str "")] :=
  chat_defaults_missing_message envNone upBoom [("other", .null)] rfl

/-- C6: the completion client issues exactly one POST, to
`{endpoint}/openai/deployments/{deployment}/chat/completions?api-version={version}`,
with the `api-key` header set to the configured key, a JSON body whose
`messages` are exactly the fixed system prompt followed by the user's
message, `max_tokens = 800`, `temperature = 0.7`, and a 30-second
timeout. -/
theorem call_request_shape (env : Env) (upstream : Upstream) (m : JVal)
    (ep ver dep key : String)
    (h1 : env "AZURE_OPENAI_ENDPOINT" = some ep)
    (h2 : env "AZURE_OPENAI_API_VERSION" = some ver)
    (h3 : env "AZURE_OPENAI_DEPLOYMENT_NAME" = some dep)
    (h4 : env "AZURE_OPENAI_API_KEY" = some key) :
    (call_azure_openai env upstream m).2 =
      [{ url := ep ++ "/openai/deployments/" ++ dep ++
           "/chat/completions?api-version=" ++ ver
         contentType := "application/json"
         apiKey := some key
         messages := [("system", .str SYSTEM_PROMPT), ("user", m)]
         max_tokens := 800
         temperature := 7/10
         timeout := 30 }] := by
  simp [call_azure_openai, buildRequest, buildUrl, getenv, fstr, h1, h2, h3, h4]

/-- Witness for C6 at a concrete environment holding all four Azure
variables. -/
theorem call_request_shape_witness :
    (call_azure_openai
        (fun k => if k = "AZURE_OPENAI_ENDPOINT" then some "https://eg.openai.azure.com"
          else if k = "AZURE_OPENAI_API_VERSION" then some "2024-02-01"
          else if k = "AZURE_OPENAI_DEPLOYMENT_NAME" then some "gpt-4"
          else if k = "AZURE_OPENAI_API_KEY" then some "k123" else none)
        upBoom (.str "hi")).2 =
      [{ url := "https://eg.openai.azure.com" ++ "/openai/deployments/" ++ "gpt-4" ++
           "/chat/completions?api-version=" ++ "2024-02-01"
         contentType := "application/json"
         apiKey := some "k123"
         messages := [("system", .str SYSTEM_PROMPT), ("user", .str "hi")]
         max_tokens := 800
         temperature := 7/10
         timeout := 30 }] :=
  call_request_shape _ upBoom (.str "hi")
    "https://eg.openai.azure.com" "2024-02-01" "gpt-4" "k123" rfl rfl rfl rfl

/-- C7: on an upstream 2xx response whose JSON body contains
`choices[0].message.content` equal to the string `s`, the completion
client returns exactly `s`. -/
theorem call_success_content (env : Env) (upstream : Upstream) (m : JVal)
    (body : JVal) (s : String)
    (h1 : upstream (buildRequest env m) = .success body)
    (h2 : extractContent body = .ok (.str s)) :
    (call_azure_openai env upstream m).1 = .ok (.str s) := by
  simp [call_azure_openai, tryBody, handleExcept, h1, h2]

/-- Witness for C7 at a concrete body with content "Try X". -/
theorem call_success_content_witness :
    upOk "Try X" (buildRequest envNone (.str "hi")) = .success (okBody "Try X") ∧
    extractContent (okBody "Try X") = .ok (.str "Try X") ∧
    (call_azure_openai envNone (upOk "Try X") (.str "hi")).1 = .ok (.str "Try X") :=
  ⟨rfl, rfl,
   call_success_content envNone (upOk "Try X") (.str "hi") (okBody "Try X") "Try X" rfl rfl⟩

/-- Environment whose deployment name is "deploy-a". -/
def envDepA : Env :=
  fun k => if k = "AZURE_OPENAI_DEPLOYMENT_NAME" then some "deploy-a" else none

/-- Environment whose deployment name is "deploy-b". -/
def envDepB : Env :=
  fun k => if k = "AZURE_OPENAI_DEPLOYMENT_NAME" then some "deploy-b" else none

/-- The "deployment" field of a response body. -/
def deploymentOf (r : Response) : JVal := (r.body.lookup "deployment").getD .null

/-- Counterexample to C8 as stated: `/api/health` is not independent of
environment changes made after process start — the handler calls
`os.getenv` at request time (app.py line 138), so two different
environments at request time yield two different responses. -/
theorem health_depends_on_current_env :
    health_check true envDepA ≠ health_check true envDepB := by
  intro h
  have h2 := congrArg deploymentOf h
  have ha : deploymentOf (health_check true envDepA) = .str "deploy-a" := rfl
  have hb : deploymentOf (health_check true envDepB) = .str "deploy-b" := rfl
  rw [ha, hb] at h2
  injection h2 with h3
  exact absurd h3 (by decide)

/-- The four environment variables the code reads per call. -/
def azureEnvKeys : List String :=
  ["AZURE_OPENAI_ENDPOINT", "AZURE_OPENAI_API_VERSION",
   "AZURE_OPENAI_DEPLOYMENT_NAME", "AZURE_OPENAI_API_KEY"]

/-- C8 (amended): the settings are read from the environment at each
invocation, not once at startup; the behaviour of the completion client
and of `/api/health` is determined by the values the four
`AZURE_OPENAI_*` variables have at call time (environments agreeing on
those keys give identical behaviour). -/
theorem config_read_at_call_time (env1 env2 : Env)
    (h : ∀ k ∈ azureEnvKeys, env1 k = env2 k) :
    (∀ c, health_check c env1 = health_check c env2) ∧
    (∀ upstream m, call_azure_openai env1 upstream m = call_azure_openai env2 upstream m) := by
  have he : env1 "AZURE_OPENAI_ENDPOINT" = env2 "AZURE_OPENAI_ENDPOINT" :=
    h _ (by simp [azureEnvKeys])
  have hv : env1 "AZURE_OPENAI_API_VERSION" = env2 "AZURE_OPENAI_API_VERSION" :=
    h _ (by simp [azureEnvKeys])
  have hd : env1 "AZURE_OPENAI_DEPLOYMENT_NAME" = env2 "AZURE_OPENAI_DEPLOYMENT_NAME" :=
    h _ (by simp [azureEnvKeys])
  have hk : env1 "AZURE_OPENAI_API_KEY" = env2 "AZURE_OPENAI_API_KEY" :=
    h _ (by simp [azureEnvKeys])
  constructor
  · intro c
    simp [health_check, getenv, hd]
  · intro upstream m
    simp [call_azure_openai, tryBody, buildRequest, buildUrl, getenv, he, hv, hd, hk]

/-- Witness for C8's amended theorem: two environments that differ on an
unrelated variable but agree on the four Azure keys behave identically. -/
theorem config_read_at_call_time_witness :
    (∀ c, health_check c (fun k => if k = "OTHER_VAR" then some "1" else none) =
      health_check c (fun k => if k = "OTHER_VAR" then some "2" else none)) ∧
    (∀ upstream m,
      call_azure_openai (fun k => if k = "OTHER_VAR" then some "1" else none) upstream m =
      call_azure_openai (fun k => if k = "OTHER_VAR" then some "2" else none) upstream m) :=
  config_read_at_call_time _ _ (by decide)

/-- A request-body state that is not a JSON object: not JSON at all, or
JSON parsing to something other than an object. -/
def nonObjectBody : BodyState → Prop
  | .notJson => True
  | .parsed (.obj _) => False
  | .parsed _ => True

/-- C9: while the connectivity flag is true, a request body that is not a
JSON object (absent/unparsable, or JSON `null`, array, string, number,
boolean) never reaches the empty-string default: the handler answers
HTTP 500 with status "error", a reply describing the raised exception,
and no upstream request is issued. -/
theorem chat_non_object_body (env : Env) (upstream : Upstream) (b : BodyState)
    (h : nonObjectBody b) :
    (chat true env upstream b).1.statusCode = 500 ∧
    (chat true env upstream b).1.body.lookup "status" = some (.str "error") ∧
    (∃ m, (chat true env upstream b).1.body.lookup "reply" =
      some (.str ("I'm having trouble connecting to the movie database: " ++ m))) ∧
    (chat true env upstream b).2 = [] := by
  cases b with
  | notJson => exact ⟨rfl, rfl, ⟨_, rfl⟩, rfl⟩
  | parsed v =>
      cases v with
      | null => exact ⟨rfl, rfl, ⟨_, rfl⟩, rfl⟩
      | bool b2 => exact ⟨rfl, rfl, ⟨_, rfl⟩, rfl⟩
      | num n => exact ⟨rfl, rfl, ⟨_, rfl⟩, rfl⟩
      | str s => exact ⟨rfl, rfl, ⟨_, rfl⟩, rfl⟩
      | arr xs => exact ⟨rfl, rfl, ⟨_, rfl⟩, rfl⟩
      | obj kvs => exact absurd h (by simp [nonObjectBody])

/-- Witness for C9 at a concrete input: a JSON `null` body yields a 500
"error" response (the `AttributeError` from `None.get`), with no upstream
call. -/
theorem chat_non_object_body_witness :
    (chat true envNone upBoom (.parsed .null)).1.statusCode = 500 ∧
    (chat true envNone upBoom (.parsed .null)).1.body.lookup "status" =
      some (.str "error") ∧
    (∃ m, (chat true envNone upBoom (.parsed .null)).1.body.lookup "reply" =
      some (.str ("I'm having trouble connecting to the movie database: " ++ m))) ∧
    (chat true envNone upBoom (.parsed .null)).2 = [] :=
  chat_non_object_body envNone upBoom (.parsed .null) trivial

/-- C10: the `GET /api/test` response body, exactly: on completion-client
success with value `v`, HTTP 200 with `success: true`, `response: v`, and
the third field `message` equal to "Azure OpenAI is working!"; on failure
with exception `e`, HTTP 500 with only `success: false` and
`error: str(e)`. -/
theorem test_connection_bodies (env : Env) (upstream : Upstream) :
    (∀ v, (call_azure_openai env upstream
        (.str "What are 2 popular movies on Netflix?")).1 = .ok v →
      test_connection env upstream =
        ⟨200, [("success", .bool true), ("response", v),
               ("message", .str "Azure OpenAI is working!")]⟩) ∧
    (∀ e, (call_azure_openai env upstream
        (.str "What are 2 popular movies on Netflix?")).1 = .error e →
      test_connection env upstream =
        ⟨500, [("success", .bool false), ("error", .str (Exc.str e))]⟩) := by
  constructor
  · intro v hv
    simp [test_connection, hv]
  · intro e he
    simp [test_connection, he]

/-- Witness for C10 at concrete inputs: a succeeding upstream gives the
three-field 200 body, a failing one the two-field 500 body. -/
theorem test_connection_bodies_witness :
    test_connection envNone (upOk "Try X") =
      ⟨200, [("success", .bool true), ("response", .str "Try X"),
             ("message", .str "Azure OpenAI is working!")]⟩ ∧
    test_connection envNone upBoom =
      ⟨500, [("success", .bool false),
             ("error", .str (Exc.str (.generic "Network error: boom")))]⟩ :=
  ⟨(test_connection_bodies envNone (upOk "Try X")).1 (.str "Try X") rfl,
   (test_connection_bodies envNone upBoom).2 (.generic "Network error: boom") rfl⟩

end RagAzure
